import Mathlib

/-!
Shallow embedding of `software/lib/wifi_scanner.py` (the channel-fallback
Wi-Fi scanning engine) and verification of its specified properties.

The Python module manipulates an external `wlan` object through four
operations: `wlan.scan()`, `wlan.config("channel")` (read the current
channel), `wlan.config(channel=c)` (keyword-style channel switch) and
`wlan.config("channel", c)` (positional-style channel switch).  We model the
radio as a `Radio`: a bundle of (possibly failing) behaviours over an
explicit radio state `RState`.  The state records the configured channel,
the number of `scan()` calls made so far, and a trace of every operation
issued to the radio, so that temporal claims ("no channel switch is ever
issued") become statements about the trace.

Python exceptions become an explicit `Exc` type; a Python function that may
raise returns an `Except Exc` value.  Diagnostics lists, which the Python
code mutates in place, are threaded explicitly.  Python's `dict` (used for
BSSID deduplication, insertion-ordered, in-place value replacement) is
modelled by an association list with the same ordering semantics.
-/

namespace WifiScanner

set_option maxRecDepth 8000

/-- A value appearing in the `args` tuple of a Python exception
(the code only inspects whether an arg is a string, and stringifies it). -/
inductive PyVal where
  | int (n : Int)
  | str (s : String)
deriving Repr, DecidableEq

/-- Python exceptions relevant to the scanner.  `osError` carries the
`errno` attribute (`none` when unset) and the `args` tuple; the other
constructors carry their message text (`str(exc)`). -/
inductive Exc where
  | memoryError (msg : String)
  | osError (errn : Option Int) (args : List PyVal)
  | typeError (msg : String)
  | runtimeError (msg : String)
  | exception (nm : String) (msg : String)
deriving Repr, DecidableEq

/-- `exc.__class__.__name__`. -/
def excClassName : Exc → String
  | .memoryError _ => "MemoryError"
  | .osError _ _ => "OSError"
  | .typeError _ => "TypeError"
  | .runtimeError _ => "RuntimeError"
  | .exception nm _ => nm

/-- `str(exc)` for the non-`OSError` constructors. -/
def excText : Exc → String
  | .memoryError m => m
  | .osError _ _ => ""
  | .typeError m => m
  | .runtimeError m => m
  | .exception _ m => m

/-- Whether the exception is caught by `except TypeError`. -/
def isTypeError : Exc → Bool
  | .typeError _ => true
  | _ => false

/-- `str(arg)` for an exception arg. -/
def pyValText : PyVal → String
  | .int n => toString n
  | .str s => s

/-- `getattr(errno, "ENOMEM", 12)` on the target platform. -/
def ENOMEM : Int := 12

/-- Membership in `_KNOWN_ENOMEM = {getattr(errno, "ENOMEM", 12), 12}`. -/
def knownEnomem (e : Int) : Bool := e == ENOMEM || e == 12

/-- `_format_exception` from `wifi_scanner.py` lines 25-40. -/
def format_exception (e : Exc) : String :=
  match e with
  | .osError errn args =>
      let parts : List String :=
        (match errn with
         | some err => ["errno=" ++ toString err]
         | none => []) ++
        (args.drop 1).filterMap (fun a =>
          match a with
          | .str s => if s = "" then none else some s
          | .int _ => none)
      let parts2 : List String :=
        match parts, args with
        | [], a :: _ => [pyValText a]
        | p, _ => p
      let detail := if parts2.isEmpty then "OSError" else String.intercalate ", " parts2
      "OSError(" ++ detail ++ ")"
  | _ =>
      let text := excText e
      if text = "" then excClassName e else excClassName e ++ "(" ++ text ++ ")"

/-- Does the character list start with the pattern? -/
def startsWithSeq : List Char → List Char → Bool
  | [], _ => true
  | _ :: _, [] => false
  | p :: ps, c :: cs => p == c && startsWithSeq ps cs

/-- Python's substring test `pat in s`, on character lists. -/
def containsSeq (pat : List Char) : List Char → Bool
  | [] => pat.isEmpty
  | c :: cs => startsWithSeq pat (c :: cs) || containsSeq pat cs

/-- `" ".join(str(arg) for arg in exc.args if isinstance(arg, str))`. -/
def osErrorText (args : List PyVal) : String :=
  String.intercalate " " (args.filterMap (fun a =>
    match a with
    | .str s => some s
    | .int _ => none))

/-- `text.lower()` as a character list. -/
def lowerData (s : String) : List Char := s.data.map Char.toLower

/-- `_is_memory_error` from `wifi_scanner.py` lines 43-55. -/
def is_memory_error (e : Exc) : Bool :=
  match e with
  | .memoryError _ => true
  | .osError errn args =>
      if (match errn with
          | some err => knownEnomem err
          | none => false) then true
      else
        let text := lowerData (osErrorText args)
        containsSeq "out of memory".data text || containsSeq "enomem".data text
  | _ => false

/-- A network record from `wlan.scan()`: a tuple of scalar fields
`(ssid, bssid, channel, rssi, authmode, ...)` with the `bytes` fields
encoded as integers.  Index 1 is the BSSID, index 3 the RSSI. -/
abbrev Entry := List Int

/-- One operation issued to the radio (plus the GC hint between the two
full-scan attempts), recorded in the state trace. -/
inductive REvent where
  | scanCall
  | configRead
  | configSetKw (c : Int)
  | configSetPos (c : Int)
  | gcCollect
deriving Repr, DecidableEq

/-- Observable radio state: the configured channel, how many `scan()` calls
have happened, and the trace of all radio operations issued so far. -/
structure RState where
  channel : Int
  scans : Nat
  trace : List REvent
deriving Repr, DecidableEq

/-- A radio (the `wlan` object): capability flags plus the outcome of each
operation as a function of the state at which it is invoked.  A successful
channel-set updates the configured channel; a failed one leaves it alone. -/
structure Radio where
  hasConfig : Bool
  configCallable : Bool
  readChannel : RState → Except Exc (Option Int)
  kwSetChannel : RState → Int → Except Exc Unit
  posSetChannel : RState → Int → Except Exc Unit
  scanResult : RState → Except Exc (List Entry)

/-- Issue `wlan.config("channel")`. -/
def doRead (r : Radio) (s : RState) : Except Exc (Option Int) × RState :=
  (r.readChannel s, { s with trace := s.trace ++ [.configRead] })

/-- Issue `wlan.config(channel=c)`. -/
def doKwSet (r : Radio) (c : Int) (s : RState) : Except Exc Unit × RState :=
  match r.kwSetChannel s c with
  | .ok _ => (.ok (), { s with channel := c, trace := s.trace ++ [.configSetKw c] })
  | .error e => (.error e, { s with trace := s.trace ++ [.configSetKw c] })

/-- Issue `wlan.config("channel", c)`. -/
def doPosSet (r : Radio) (c : Int) (s : RState) : Except Exc Unit × RState :=
  match r.posSetChannel s c with
  | .ok _ => (.ok (), { s with channel := c, trace := s.trace ++ [.configSetPos c] })
  | .error e => (.error e, { s with trace := s.trace ++ [.configSetPos c] })

/-- Issue `wlan.scan()`. -/
def doScan (r : Radio) (s : RState) : Except Exc (List Entry) × RState :=
  (r.scanResult s, { s with scans := s.scans + 1, trace := s.trace ++ [.scanCall] })

/-- `_set_channel_via_config` from `wifi_scanner.py` lines 58-95.  Returns
`((supported, restored_value), diagnostics, state)`.  `restored_value` is
`none` both when the read of the previous channel raised (the Python
sentinel case) and when it returned Python `None`, exactly as the Python
collapses those two cases for `_restore_channel`. -/
def set_channel_via_config (r : Radio) (channel : Int) (diagnostics : List String)
    (s : RState) : (Bool × Option Int) × List String × RState :=
  if !r.hasConfig then
    ((false, none), diagnostics ++ ["WLAN.config attribute missing"], s)
  else if !r.configCallable then
    ((false, none), diagnostics ++ ["WLAN.config is not callable"], s)
  else
    let rd := doRead r s
    let diag1 :=
      match rd.1 with
      | .ok _ => diagnostics
      | .error exc =>
          diagnostics ++ ["reading current channel failed: " ++ format_exception exc]
    let previous : Option Int :=
      match rd.1 with
      | .ok (some v) => some v
      | _ => none
    let kw := doKwSet r channel rd.2
    match kw.1 with
    | .ok _ => ((true, previous), diag1, kw.2)
    | .error e =>
        if isTypeError e then
          let ps := doPosSet r channel kw.2
          match ps.1 with
          | .ok _ => ((true, previous), diag1, ps.2)
          | .error e2 =>
              ((false, none),
               diag1 ++ ["setting channel via positional arguments failed: " ++
                 format_exception e2], ps.2)
        else
          ((false, none), diag1 ++ ["setting channel failed: " ++ format_exception e], kw.2)

/-- `_restore_channel` from `wifi_scanner.py` lines 98-114. -/
def restore_channel (r : Radio) (previous : Option Int) (diagnostics : List String)
    (s : RState) : List String × RState :=
  match previous with
  | none => (diagnostics, s)
  | some p =>
      let kw := doKwSet r p s
      match kw.1 with
      | .ok _ => (diagnostics, kw.2)
      | .error e =>
          if isTypeError e then
            let ps := doPosSet r p kw.2
            match ps.1 with
            | .ok _ => (diagnostics, ps.2)
            | .error e2 =>
                (diagnostics ++ ["restoring channel via positional arguments failed: " ++
                  format_exception e2], ps.2)
          else
            (diagnostics ++ ["restoring channel failed: " ++ format_exception e], kw.2)

/-- `scan_wifi_by_channel` from `wifi_scanner.py` lines 117-145.  Result
`.ok none` is Python's `return None` (channel switching unsupported);
`.error e` is an uncaught exception.  The `finally:` channel restore runs on
every path out of the scan, as in the source.  (Our radio model returns a
list from `scan()`, so `list(results or [])` is the returned list itself.) -/
def scan_wifi_by_channel (r : Radio) (channel : Int) (diagnostics : List String)
    (s : RState) : Except Exc (Option (List Entry)) × List String × RState :=
  let t := set_channel_via_config r channel diagnostics s
  if t.1.1 then
    let sc := doScan r t.2.2
    match sc.1 with
    | .ok results =>
        let rest := restore_channel r t.1.2 t.2.1 sc.2
        (.ok (some results), rest.1, rest.2)
    | .error e =>
        if is_memory_error e then
          let d2 := t.2.1 ++ ["scan on channel " ++ toString channel ++
            " exhausted memory: " ++ format_exception e]
          let rest := restore_channel r t.1.2 d2 sc.2
          (.ok (some []), rest.1, rest.2)
        else
          let d2 := t.2.1 ++ ["scan on channel " ++ toString channel ++ " failed: " ++
            format_exception e]
          let rest := restore_channel r t.1.2 d2 sc.2
          (.error e, rest.1, rest.2)
  else
    (.ok none, t.2.1, t.2.2)

/-- `entry[1]`, the BSSID field. -/
def entryBssid (e : Entry) : Int := e.getD 1 0

/-- `entry[3]`, the RSSI field. -/
def entryRssi (e : Entry) : Int := e.getD 3 0

/-- `dedup.get(bssid)` on the insertion-ordered association list. -/
def lookupBssid : List (Int × Entry) → Int → Option Entry
  | [], _ => none
  | p :: d, b => if p.1 = b then some p.2 else lookupBssid d b

/-- The dict update of `wifi_scanner.py` lines 192-195: insert the entry
when its BSSID is new (at the end, as a Python dict does), else replace the
stored record in place exactly when the new entry's RSSI is strictly
higher. -/
def mergeEntry (d : List (Int × Entry)) (e : Entry) : List (Int × Entry) :=
  let b := entryBssid e
  match lookupBssid d b with
  | none => d ++ [(b, e)]
  | some ex =>
      if entryRssi ex < entryRssi e then
        d.map (fun p => if p.1 = b then (p.1, e) else p)
      else d

/-- The merge loop of `wifi_scanner.py` lines 189-195: entries shorter than
4 fields are skipped, the rest are merged by BSSID. -/
def mergeChannelResults (d : List (Int × Entry)) (results : List Entry) :
    List (Int × Entry) :=
  results.foldl (fun acc e => if e.length < 4 then acc else mergeEntry acc e) d

/-- Accumulator of the per-channel fallback loop in `scan_wifi_networks`:
the dedup dict, the `per_channel_supported` flag, the
`per_channel_failures` log and the radio state. -/
structure FallbackAcc where
  dedup : List (Int × Entry)
  perChannelSupported : Bool
  perChannelFailures : List String
  state : RState
deriving Repr, DecidableEq

/-- One iteration of the per-channel loop, `wifi_scanner.py` lines 169-195
(`channel_diag` starts empty each iteration; an exception escaping
`scan_wifi_by_channel` is logged and the loop continues). -/
def channelStep (r : Radio) (acc : FallbackAcc) (channel : Int) : FallbackAcc :=
  let t := scan_wifi_by_channel r channel [] acc.state
  match t.1 with
  | .error exc =>
      { acc with
        perChannelFailures := acc.perChannelFailures ++
          ["channel " ++ toString channel ++ ": " ++ format_exception exc],
        state := t.2.2 }
  | .ok none =>
      if t.2.1.isEmpty then
        { acc with
          perChannelFailures := acc.perChannelFailures ++
            ["channel " ++ toString channel ++ ": channel switching unsupported"],
          state := t.2.2 }
      else
        { acc with
          perChannelFailures := acc.perChannelFailures ++
            ["channel " ++ toString channel ++ ": " ++ String.intercalate "; " t.2.1],
          state := t.2.2 }
  | .ok (some results) =>
      { acc with
        perChannelSupported := true,
        dedup := mergeChannelResults acc.dedup results,
        state := t.2.2 }

/-- `scan_wifi_networks` from `wifi_scanner.py` lines 148-206, additionally
returning the internal `attempts` and `per_channel_failures` logs (which
the Python keeps in local variables) for observability:
`(result, attempts, per_channel_failures, state)`. -/
def scan_wifi_networks_full (r : Radio) (channels : List Int) (s : RState) :
    Except Exc (List Entry) × List String × List String × RState :=
  let a1 := doScan r s
  match a1.1 with
  | .ok res => (.ok res, [], [], a1.2)
  | .error e1 =>
      if is_memory_error e1 then
        let attempts1 := ["full scan attempt 1: " ++ format_exception e1]
        let s1g : RState := { a1.2 with trace := a1.2.trace ++ [.gcCollect] }
        let a2 := doScan r s1g
        match a2.1 with
        | .ok res => (.ok res, attempts1, [], a2.2)
        | .error e2 =>
            if is_memory_error e2 then
              let attempts := attempts1 ++
                ["full scan attempt 2: " ++ format_exception e2]
              let acc := channels.foldl (channelStep r) ⟨[], false, [], a2.2⟩
              if acc.perChannelSupported then
                (.ok (acc.dedup.map Prod.snd), attempts, acc.perChannelFailures,
                 acc.state)
              else
                let details := attempts ++ acc.perChannelFailures
                let details2 :=
                  if details.isEmpty then ["no scanning methods succeeded"] else details
                (.error (.runtimeError
                   ("Wi-Fi scan failed after attempting per-channel fallback: " ++
                     String.intercalate "; " details2)),
                 attempts, acc.perChannelFailures, acc.state)
            else (.error e2, attempts1, [], a2.2)
      else (.error e1, [], [], a1.2)

/-- `scan_wifi_networks` as callers see it: the returned (or raised) value
and the final radio state. -/
def scan_wifi_networks (r : Radio) (channels : List Int) (s : RState) :
    Except Exc (List Entry) × RState :=
  let t := scan_wifi_networks_full r channels s
  (t.1, t.2.2.2)

/-- The radio state reached after the first failed full-scan attempt and the
garbage-collection hint. -/
def stateAfterAttempt1 (s : RState) : RState :=
  ⟨s.channel, s.scans + 1, s.trace ++ [.scanCall, .gcCollect]⟩

/-- The radio state reached after two failed full-scan attempts. -/
def stateAfterAttempt2 (s : RState) : RState :=
  ⟨s.channel, s.scans + 2, s.trace ++ [.scanCall, .gcCollect, .scanCall]⟩

/-- The ESP32-style `OSError: wifi out of memory` used by the repository's
own test-suite stubs. -/
def oomExc : Exc := .osError (some 12) [.int 12, .str "wifi out of memory"]

/-- A non-memory I/O failure (`OSError(EIO, "wifi internal error")`). -/
def eioExc : Exc := .osError (some 5) [.int 5, .str "wifi internal error"]

/-- A non-type-mismatch failure of the keyword-style `config` call. -/
def cfgFailExc : Exc := .osError (some 5) [.int 5, .str "config write failed"]

/-- A fully well-behaved radio: channel read returns the configured channel,
both channel-set forms succeed, full scans return one record. -/
def wellRadio : Radio where
  hasConfig := true
  configCallable := true
  readChannel := fun s => .ok (some s.channel)
  kwSetChannel := fun _ _ => .ok ()
  posSetChannel := fun _ _ => .ok ()
  scanResult := fun _ => .ok [[1, 170, 6, -40, 3]]

/-- A radio whose full-band scans (on channel 0) exhaust memory while
single-channel scans succeed, as the repository's `_MemorySavingWLAN` stub. -/
def fallbackRadio : Radio :=
  { wellRadio with
    scanResult := fun s =>
      if s.channel = 0 then .error oomExc
      else .ok [[100, s.channel, s.channel, -40, 0]] }

/-- A radio with no `config` attribute whose scans exhaust memory, as the
repository's `_NoConfigWLAN(fail=True)` stub. -/
def noConfigFailRadio : Radio :=
  { wellRadio with hasConfig := false, scanResult := fun _ => .error oomExc }

/-- A radio whose keyword-style channel set fails with a non-`TypeError`. -/
def kwFailRadio : Radio :=
  { wellRadio with kwSetChannel := fun _ _ => .error cfgFailExc }

/-- A radio whose every scan exhausts memory but whose channel switching is
fully functional. -/
def memScanRadio : Radio :=
  { wellRadio with scanResult := fun _ => .error oomExc }

/-- A radio whose every scan fails with a non-memory I/O error. -/
def eioScanRadio : Radio :=
  { wellRadio with scanResult := fun _ => .error eioExc }

/-- A radio whose channel read raises while channel sets succeed. -/
def readFailRadio : Radio :=
  { wellRadio with readChannel := fun _ => .error eioExc }

/-- The per-channel failure entry recorded when the radio object has no
`config` attribute. -/
def missingConfigEntry (c : Int) : String :=
  "channel " ++ toString c ++ ": WLAN.config attribute missing"

deriving instance DecidableEq for Except

lemma lookupBssid_none_iff {d : List (Int × Entry)} {b : Int} :
    lookupBssid d b = none ↔ ∀ p ∈ d, p.1 ≠ b := by
  induction d with
  | nil => simp [lookupBssid]
  | cons p tl ih =>
      by_cases hp : p.1 = b
      · simp [lookupBssid, hp]
      · simp [lookupBssid, hp, ih]

lemma lookupBssid_append_single_self (d : List (Int × Entry)) (b : Int) (e : Entry)
    (h : lookupBssid d b = none) : lookupBssid (d ++ [(b, e)]) b = some e := by
  induction d with
  | nil => simp [lookupBssid]
  | cons p tl ih =>
      by_cases hp : p.1 = b
      · simp [lookupBssid, hp] at h
      · simp only [lookupBssid, if_neg hp] at h
        simp only [List.cons_append, lookupBssid, if_neg hp]
        exact ih h

lemma lookupBssid_append_single_other (d : List (Int × Entry)) (b c : Int) (e : Entry)
    (hcb : c ≠ b) : lookupBssid (d ++ [(b, e)]) c = lookupBssid d c := by
  induction d with
  | nil =>
      have hbc : ¬(b = c) := fun hh => hcb hh.symm
      simp [lookupBssid, hbc]
  | cons p tl ih =>
      by_cases hp : p.1 = c
      · simp [lookupBssid, hp]
      · simp [lookupBssid, hp, ih]

lemma lookupBssid_replace_self (d : List (Int × Entry)) (b : Int) (e ex : Entry)
    (h : lookupBssid d b = some ex) :
    lookupBssid (d.map (fun p => if p.1 = b then (p.1, e) else p)) b = some e := by
  induction d with
  | nil => simp [lookupBssid] at h
  | cons p tl ih =>
      by_cases hp : p.1 = b
      · simp only [List.map_cons, if_pos hp, lookupBssid]
      · simp only [lookupBssid, if_neg hp] at h
        simp only [List.map_cons, if_neg hp, lookupBssid]
        exact ih h

lemma lookupBssid_replace_other (d : List (Int × Entry)) (b c : Int) (e : Entry)
    (hcb : c ≠ b) :
    lookupBssid (d.map (fun p => if p.1 = b then (p.1, e) else p)) c =
      lookupBssid d c := by
  induction d with
  | nil => simp [lookupBssid]
  | cons p tl ih =>
      by_cases hp : p.1 = b
      · have hpc : ¬(p.1 = c) := by rw [hp]; exact fun hh => hcb hh.symm
        simp only [List.map_cons, if_pos hp, lookupBssid]
        rw [if_neg hpc, if_neg hpc]
        exact ih
      · simp only [List.map_cons, if_neg hp, lookupBssid]
        by_cases hpc : p.1 = c
        · rw [if_pos hpc, if_pos hpc]
        · rw [if_neg hpc, if_neg hpc]
          exact ih

lemma keys_map_replace (d : List (Int × Entry)) (b : Int) (e : Entry) :
    (d.map (fun p => if p.1 = b then (p.1, e) else p)).map Prod.fst =
      d.map Prod.fst := by
  induction d with
  | nil => rfl
  | cons p tl ih =>
      simp only [List.map_cons, ih]
      congr 1
      by_cases hp : p.1 = b
      · rw [if_pos hp]
      · rw [if_neg hp]

lemma mergeEntry_keys_nodup {d : List (Int × Entry)} (e : Entry)
    (h : (d.map Prod.fst).Nodup) : ((mergeEntry d e).map Prod.fst).Nodup := by
  cases hl : lookupBssid d (entryBssid e) with
  | none =>
      have hb : entryBssid e ∉ d.map Prod.fst := by
        intro hmem
        rcases List.mem_map.mp hmem with ⟨p, hp, hfst⟩
        exact (lookupBssid_none_iff.mp hl p hp) hfst
      simp only [mergeEntry, hl]
      simp [List.nodup_append, h, hb]
  | some ex =>
      by_cases hr : entryRssi ex < entryRssi e
      · simp only [mergeEntry, hl, if_pos hr]
        rw [keys_map_replace]
        exact h
      · simp only [mergeEntry, hl, if_neg hr]
        exact h

lemma mergeChannelResults_keys_nodup (results : List Entry) :
    ∀ d : List (Int × Entry), (d.map Prod.fst).Nodup →
      ((mergeChannelResults d results).map Prod.fst).Nodup := by
  induction results with
  | nil => intro d h; simpa [mergeChannelResults] using h
  | cons e rest ih =>
      intro d h
      simp only [mergeChannelResults, List.foldl_cons] at *
      by_cases hl : e.length < 4
      · simpa [hl] using ih d h
      · simpa [hl] using ih (mergeEntry d e) (mergeEntry_keys_nodup e h)

/-- Claim C3: in the fallback merge, the result set keeps at most one record
per BSSID; a record replaces the stored one for its BSSID exactly when its
signal strength (index 3) is strictly higher, ties keeping the record that
was already in the set, and records with other BSSIDs are untouched. -/
theorem merge_dedup_by_bssid :
    (∀ (d : List (Int × Entry)) (results : List Entry),
        (d.map Prod.fst).Nodup →
        ((mergeChannelResults d results).map Prod.fst).Nodup)
    ∧ (∀ (d : List (Int × Entry)) (e : Entry), 4 ≤ e.length →
        lookupBssid (mergeEntry d e) (entryBssid e) =
          some (match lookupBssid d (entryBssid e) with
                | none => e
                | some ex => if entryRssi ex < entryRssi e then e else ex))
    ∧ (∀ (d : List (Int × Entry)) (e : Entry) (b : Int), b ≠ entryBssid e →
        lookupBssid (mergeEntry d e) b = lookupBssid d b) := by
  refine ⟨fun d results h => mergeChannelResults_keys_nodup results d h, ?_, ?_⟩
  · intro d e _
    cases hl : lookupBssid d (entryBssid e) with
    | none =>
        simp only [mergeEntry, hl]
        exact lookupBssid_append_single_self d (entryBssid e) e hl
    | some ex =>
        by_cases hr : entryRssi ex < entryRssi e
        · simp only [mergeEntry, hl, if_pos hr]
          exact lookupBssid_replace_self d (entryBssid e) e ex hl
        · simp only [mergeEntry, hl, if_neg hr]
  · intro d e b hb
    cases hl : lookupBssid d (entryBssid e) with
    | none =>
        simp only [mergeEntry, hl]
        exact lookupBssid_append_single_other d (entryBssid e) b e hb
    | some ex =>
        by_cases hr : entryRssi ex < entryRssi e
        · simp only [mergeEntry, hl, if_pos hr]
          exact lookupBssid_replace_other d (entryBssid e) b e hb
        · simp only [mergeEntry, hl, if_neg hr]

/-- Witness for C3 at the repository's own deduplication test data: BSSID 1
seen with RSSI -70 then -35 keeps the -35 record. -/
theorem merge_dedup_by_bssid_witness :
    lookupBssid (mergeEntry [(1, [100, 1, 1, -70, 0])] [100, 1, 6, -35, 0]) 1 =
      some [100, 1, 6, -35, 0] := by
  have h := (merge_dedup_by_bssid.2.1) [(1, [100, 1, 1, -70, 0])] [100, 1, 6, -35, 0]
    (by decide)
  exact h.trans (by decide)

lemma is_memory_error_osError (errn : Option Int) (args : List PyVal) :
    is_memory_error (.osError errn args) = true ↔
      (errn = some ENOMEM ∨
       containsSeq "out of memory".data (lowerData (osErrorText args)) = true ∨
       containsSeq "enomem".data (lowerData (osErrorText args)) = true) := by
  cases errn with
  | none => simp [is_memory_error, Bool.or_eq_true]
  | some err =>
      by_cases h : err = 12
      · subst h
        simp [is_memory_error, knownEnomem, ENOMEM]
      · simp [is_memory_error, knownEnomem, ENOMEM, h, Bool.or_eq_true]

/-- Claim C5: the memory-pressure classifier accepts exactly the dedicated
memory-exhaustion signal (`MemoryError`), an `OSError` whose `errno` equals
the platform `ENOMEM` value, and an `OSError` whose string arguments contain
the case-insensitive substring "out of memory" or "enomem". -/
theorem is_memory_error_characterization (e : Exc) :
    is_memory_error e = true ↔
      ((∃ m, e = .memoryError m) ∨
       (∃ args, e = .osError (some ENOMEM) args) ∨
       (∃ errn args, e = .osError errn args ∧
         (containsSeq "out of memory".data (lowerData (osErrorText args)) = true ∨
          containsSeq "enomem".data (lowerData (osErrorText args)) = true))) := by
  cases e with
  | memoryError m => simp [is_memory_error]
  | typeError m => simp [is_memory_error]
  | runtimeError m => simp [is_memory_error]
  | exception nm m => simp [is_memory_error]
  | osError errn args =>
      rw [is_memory_error_osError]
      constructor
      · rintro (h | h | h)
        · exact Or.inr (Or.inl ⟨args, by rw [h]⟩)
        · exact Or.inr (Or.inr ⟨errn, args, rfl, Or.inl h⟩)
        · exact Or.inr (Or.inr ⟨errn, args, rfl, Or.inr h⟩)
      · rintro (⟨m, hm⟩ | ⟨args1, hargs⟩ | ⟨errn1, args1, heq, hor⟩)
        · exact Exc.noConfusion hm
        · injection hargs with h1 h2
          subst h1
          exact Or.inl rfl
        · injection heq with h1 h2
          subst h1
          subst h2
          exact Or.inr hor

lemma set_channel_normal (r : Radio) (ch : Int) (d : List String) (s : RState)
    (hc : r.hasConfig = true) (hcc : r.configCallable = true)
    (hR : ∀ s', r.readChannel s' = .ok (some s'.channel))
    (hK : ∀ s' c, r.kwSetChannel s' c = .ok ()) :
    set_channel_via_config r ch d s =
      ((true, some s.channel), d,
       ⟨ch, s.scans, s.trace ++ [.configRead, .configSetKw ch]⟩) := by
  simp [set_channel_via_config, doRead, doKwSet, hc, hcc, hR, hK]

/-- Claim C1: on a radio whose channel read returns the configured channel
and whose channel set always succeeds, `scan_wifi_by_channel` leaves the
channel configuration equal to its pre-call value whatever the scan does,
and the restore switch is issued even when the scan raised; on any radio the
returned value is fully determined by the switch support and the scan
outcome, so a failure of the restore is never raised to the caller; a
non-`TypeError` restore failure is recorded as a diagnostic only. -/
theorem scanChannel_channel_restoration :
    (∀ (r : Radio) (ch : Int) (d : List String) (s : RState),
        r.hasConfig = true → r.configCallable = true →
        (∀ s', r.readChannel s' = .ok (some s'.channel)) →
        (∀ s' c, r.kwSetChannel s' c = .ok ()) →
        (scan_wifi_by_channel r ch d s).2.2.channel = s.channel ∧
        (scan_wifi_by_channel r ch d s).2.2.trace =
          s.trace ++ [.configRead, .configSetKw ch, .scanCall, .configSetKw s.channel])
    ∧ (∀ (r : Radio) (ch : Int) (d : List String) (s : RState),
        (scan_wifi_by_channel r ch d s).1 =
          (if (set_channel_via_config r ch d s).1.1 then
            match (doScan r (set_channel_via_config r ch d s).2.2).1 with
            | .ok l => .ok (some l)
            | .error e => if is_memory_error e then .ok (some []) else .error e
           else .ok none))
    ∧ (∀ (r : Radio) (p : Int) (d : List String) (s : RState) (e : Exc),
        r.kwSetChannel s p = .error e → isTypeError e = false →
        restore_channel r (some p) d s =
          (d ++ ["restoring channel failed: " ++ format_exception e],
           { s with trace := s.trace ++ [.configSetKw p] })) := by
  refine ⟨?_, ?_, ?_⟩
  · intro r ch d s hc hcc hR hK
    cases hsc : r.scanResult ⟨ch, s.scans, s.trace ++ [.configRead, .configSetKw ch]⟩ with
    | ok l =>
        simp [scan_wifi_by_channel, set_channel_via_config, doRead, doKwSet, doScan,
          restore_channel, hc, hcc, hR, hK, hsc]
    | error e =>
        by_cases hm : is_memory_error e
        · simp [scan_wifi_by_channel, set_channel_via_config, doRead, doKwSet, doScan,
            restore_channel, hc, hcc, hR, hK, hsc, hm]
        · simp [scan_wifi_by_channel, set_channel_via_config, doRead, doKwSet, doScan,
            restore_channel, hc, hcc, hR, hK, hsc, hm]
  · intro r ch d s
    simp only [scan_wifi_by_channel]
    cases hss : (set_channel_via_config r ch d s).1.1 with
    | false => simp [hss]
    | true =>
        simp only [hss, if_true]
        cases hsc : (doScan r (set_channel_via_config r ch d s).2.2).1 with
        | ok l => simp [hsc]
        | error e => by_cases hm : is_memory_error e <;> simp [hsc, hm]
  · intro r p d s e hK hTE
    simp [restore_channel, doKwSet, hK, hTE]

/-- Witness for C1: the well-behaved radio scanned on channel 11 starting
from channel 6 ends with channel 6 configured, the restore switch last. -/
theorem scanChannel_channel_restoration_witness :
    (scan_wifi_by_channel wellRadio 11 [] ⟨6, 0, []⟩).2.2.channel = 6 ∧
    (scan_wifi_by_channel wellRadio 11 [] ⟨6, 0, []⟩).2.2.trace =
      [.configRead, .configSetKw 11, .scanCall, .configSetKw 6] := by
  have h := scanChannel_channel_restoration.1 wellRadio 11 [] ⟨6, 0, []⟩
    rfl rfl (fun _ => rfl) (fun _ _ => rfl)
  simpa using h

/-- Claim C4: a full-scan failure that the classifier does not count as
out-of-memory is raised to the caller unchanged and immediately: no second
attempt, no fallback, no channel switch, and no diagnostic entry recorded
for it — whether it happens on the first or on the second attempt. -/
theorem scanNetworks_nonmemory_propagates :
    (∀ (r : Radio) (channels : List Int) (s : RState) (e : Exc),
        r.scanResult s = .error e → is_memory_error e = false →
        scan_wifi_networks_full r channels s =
          (.error e, [], [], ⟨s.channel, s.scans + 1, s.trace ++ [.scanCall]⟩))
    ∧ (∀ (r : Radio) (channels : List Int) (s : RState) (e1 e2 : Exc),
        r.scanResult s = .error e1 → is_memory_error e1 = true →
        r.scanResult (stateAfterAttempt1 s) = .error e2 → is_memory_error e2 = false →
        scan_wifi_networks_full r channels s =
          (.error e2, ["full scan attempt 1: " ++ format_exception e1], [],
           ⟨s.channel, s.scans + 2, s.trace ++ [.scanCall, .gcCollect, .scanCall]⟩)) := by
  constructor
  · intro r channels s e h hm
    simp [scan_wifi_networks_full, doScan, h, hm]
  · intro r channels s e1 e2 h1 hm1 h2 hm2
    simp only [stateAfterAttempt1] at h2
    simp [scan_wifi_networks_full, doScan, h1, hm1, h2, hm2]

/-- Witness for C4: a radio failing with `OSError(EIO)` propagates that very
error with empty logs and a single scan call issued. -/
theorem scanNetworks_nonmemory_propagates_witness :
    scan_wifi_networks_full eioScanRadio [1, 6] ⟨0, 0, []⟩ =
      (.error eioExc, [], [], ⟨0, 1, [.scanCall]⟩) := by
  have h := scanNetworks_nonmemory_propagates.1 eioScanRadio [1, 6] ⟨0, 0, []⟩ eioExc
    rfl (by decide)
  simpa using h

/-- Claim C9: if the first full-scan attempt succeeds, its result is
returned immediately; the whole invocation issues exactly one radio
operation (the scan), so no channel-switch call is ever made and the
per-channel fallback phase never runs. -/
theorem scanNetworks_short_circuit (r : Radio) (channels : List Int) (s : RState)
    (res : List Entry) (h : r.scanResult s = .ok res) :
    scan_wifi_networks_full r channels s =
      (.ok res, [], [], ⟨s.channel, s.scans + 1, s.trace ++ [.scanCall]⟩)
    ∧ ∀ c : Int,
        REvent.configSetKw c ∉
          ((scan_wifi_networks_full r channels s).2.2.2.trace.drop s.trace.length) ∧
        REvent.configSetPos c ∉
          ((scan_wifi_networks_full r channels s).2.2.2.trace.drop s.trace.length) := by
  have heq : scan_wifi_networks_full r channels s =
      (.ok res, [], [], ⟨s.channel, s.scans + 1, s.trace ++ [.scanCall]⟩) := by
    simp [scan_wifi_networks_full, doScan, h]
  refine ⟨heq, fun c => ?_⟩
  rw [heq]
  constructor
  · simp [List.drop_left]
  · simp [List.drop_left]

/-- Witness for C9: the well-behaved radio returns its record list with only
one scan call in the trace. -/
theorem scanNetworks_short_circuit_witness :
    scan_wifi_networks_full wellRadio [1, 6, 11] ⟨0, 0, []⟩ =
      (.ok [[1, 170, 6, -40, 3]], [], [], ⟨0, 1, [.scanCall]⟩) := by
  exact (scanNetworks_short_circuit wellRadio [1, 6, 11] ⟨0, 0, []⟩ _ rfl).1

lemma scanNetworks_two_memory_failures (r : Radio) (channels : List Int) (s : RState)
    (e1 e2 : Exc)
    (h1 : r.scanResult s = .error e1) (hm1 : is_memory_error e1 = true)
    (h2 : r.scanResult (stateAfterAttempt1 s) = .error e2)
    (hm2 : is_memory_error e2 = true) :
    scan_wifi_networks_full r channels s =
      (let acc := channels.foldl (channelStep r) ⟨[], false, [], stateAfterAttempt2 s⟩
       let attempts := ["full scan attempt 1: " ++ format_exception e1,
                        "full scan attempt 2: " ++ format_exception e2]
       if acc.perChannelSupported then
         (.ok (acc.dedup.map Prod.snd), attempts, acc.perChannelFailures, acc.state)
       else
         (.error (.runtimeError
            ("Wi-Fi scan failed after attempting per-channel fallback: " ++
              String.intercalate "; " (attempts ++ acc.perChannelFailures))),
          attempts, acc.perChannelFailures, acc.state)) := by
  simp only [stateAfterAttempt1] at h2
  simp [scan_wifi_networks_full, doScan, h1, hm1, h2, hm2, stateAfterAttempt2]

/-- Claim C2: after both full-scan attempts fail with memory-classified
errors, the call raises exactly when no channel yielded a supported scan
attempt; in that case the message is the prefix followed by the "; "-joined
concatenation of the full-scan failure entries and the per-channel failure
entries, and otherwise the deduplicated result values are returned as a
plain list, even when empty. -/
theorem scanNetworks_total_failure (r : Radio) (channels : List Int) (s : RState)
    (e1 e2 : Exc)
    (h1 : r.scanResult s = .error e1) (hm1 : is_memory_error e1 = true)
    (h2 : r.scanResult (stateAfterAttempt1 s) = .error e2)
    (hm2 : is_memory_error e2 = true) :
    ((∃ msg, (scan_wifi_networks r channels s).1 = .error (.runtimeError msg)) ↔
      (channels.foldl (channelStep r)
        ⟨[], false, [], stateAfterAttempt2 s⟩).perChannelSupported = false)
    ∧ ((channels.foldl (channelStep r)
          ⟨[], false, [], stateAfterAttempt2 s⟩).perChannelSupported = true →
        (scan_wifi_networks r channels s).1 =
          .ok ((channels.foldl (channelStep r)
            ⟨[], false, [], stateAfterAttempt2 s⟩).dedup.map Prod.snd))
    ∧ ((channels.foldl (channelStep r)
          ⟨[], false, [], stateAfterAttempt2 s⟩).perChannelSupported = false →
        (scan_wifi_networks r channels s).1 =
          .error (.runtimeError
            ("Wi-Fi scan failed after attempting per-channel fallback: " ++
              String.intercalate "; "
                (["full scan attempt 1: " ++ format_exception e1,
                  "full scan attempt 2: " ++ format_exception e2] ++
                 (channels.foldl (channelStep r)
                   ⟨[], false, [], stateAfterAttempt2 s⟩).perChannelFailures)))) := by
  have heq := scanNetworks_two_memory_failures r channels s e1 e2 h1 hm1 h2 hm2
  simp only [scan_wifi_networks, heq]
  cases hsup : (channels.foldl (channelStep r)
      ⟨[], false, [], stateAfterAttempt2 s⟩).perChannelSupported with
  | true => simp [hsup]
  | false => simp [hsup]

/-- Witness for C2: the memory-limited radio with working per-channel scans
returns the two deduplicated records instead of raising. -/
theorem scanNetworks_total_failure_witness :
    (scan_wifi_networks fallbackRadio [1, 6] ⟨0, 0, []⟩).1 =
      .ok [[100, 1, 1, -40, 0], [100, 6, 6, -40, 0]] := by
  have h := (scanNetworks_total_failure fallbackRadio [1, 6] ⟨0, 0, []⟩ oomExc oomExc
    (by decide) (by decide) (by decide) (by decide)).2.1 (by decide)
  rw [h]
  decide

lemma channelStep_noConfig (r : Radio) (hnc : r.hasConfig = false)
    (acc : FallbackAcc) (ch : Int) :
    channelStep r acc ch =
      { acc with perChannelFailures := acc.perChannelFailures ++ [missingConfigEntry ch] } := by
  have hlit : ": " ++ "WLAN.config attribute missing" =
      ": WLAN.config attribute missing" := rfl
  have hi : String.intercalate "; " ["WLAN.config attribute missing"] =
      "WLAN.config attribute missing" := rfl
  simp [channelStep, scan_wifi_by_channel, set_channel_via_config, hnc, hi,
    String.append_assoc, hlit, missingConfigEntry]

lemma foldl_noConfig (r : Radio) (hnc : r.hasConfig = false) :
    ∀ (channels : List Int) (acc : FallbackAcc),
      channels.foldl (channelStep r) acc =
        { acc with perChannelFailures :=
            acc.perChannelFailures ++ channels.map missingConfigEntry } := by
  intro channels
  induction channels with
  | nil => intro acc; simp
  | cons c rest ih =>
      intro acc
      simp only [List.foldl_cons, channelStep_noConfig r hnc, ih, List.map_cons]
      simp [List.append_assoc]

/-- Claim C6 (amended): when the radio has no channel-configuration
capability and both full scans failed with memory-classified errors, every
channel is logged as "channel {c}: WLAN.config attribute missing" (the
collected set-channel diagnostic — the literal "channel switching
unsupported" is emitted only when no diagnostic was collected, which cannot
happen on this path), the sweep covers every channel without aborting, and
the aggregate error text carries that entry for every channel attempted. -/
theorem scanNetworks_noConfig_logs (r : Radio) (channels : List Int) (s : RState)
    (e1 e2 : Exc) (hnc : r.hasConfig = false)
    (h1 : r.scanResult s = .error e1) (hm1 : is_memory_error e1 = true)
    (h2 : r.scanResult (stateAfterAttempt1 s) = .error e2)
    (hm2 : is_memory_error e2 = true) :
    (scan_wifi_networks_full r channels s).2.2.1 = channels.map missingConfigEntry
    ∧ (scan_wifi_networks r channels s).1 =
      .error (.runtimeError
        ("Wi-Fi scan failed after attempting per-channel fallback: " ++
          String.intercalate "; "
            (["full scan attempt 1: " ++ format_exception e1,
              "full scan attempt 2: " ++ format_exception e2] ++
             channels.map missingConfigEntry))) := by
  have heq := scanNetworks_two_memory_failures r channels s e1 e2 h1 hm1 h2 hm2
  have hfold := foldl_noConfig r hnc channels ⟨[], false, [], stateAfterAttempt2 s⟩
  rw [scan_wifi_networks, heq]
  simp [hfold]

/-- Witness for C6 (amended): the config-less radio over channels [1, 2]
logs the missing-attribute diagnostic for both channels. -/
theorem scanNetworks_noConfig_logs_witness :
    (scan_wifi_networks_full noConfigFailRadio [1, 2] ⟨0, 0, []⟩).2.2.1 =
      ["channel 1: WLAN.config attribute missing",
       "channel 2: WLAN.config attribute missing"] := by
  have h := (scanNetworks_noConfig_logs noConfigFailRadio [1, 2] ⟨0, 0, []⟩ oomExc oomExc
    rfl rfl (by decide) rfl (by decide)).1
  rw [h]
  decide

/-- Counterexample to C6 as stated: with no channel-configuration capability
the recorded log entry is "channel 1: WLAN.config attribute missing", not
"channel 1: channel switching unsupported", and the aggregate error text
does not contain the phrase "channel switching unsupported" at all. -/
theorem scanNetworks_unsupported_literal_counterexample :
    (scan_wifi_networks_full noConfigFailRadio [1] ⟨0, 0, []⟩).2.2.1 =
      ["channel 1: WLAN.config attribute missing"]
    ∧ (scan_wifi_networks_full noConfigFailRadio [1] ⟨0, 0, []⟩).2.2.1 ≠
      ["channel 1: channel switching unsupported"]
    ∧ (scan_wifi_networks noConfigFailRadio [1] ⟨0, 0, []⟩).1 =
      .error (.runtimeError
        "Wi-Fi scan failed after attempting per-channel fallback: full scan attempt 1: OSError(errno=12, wifi out of memory); full scan attempt 2: OSError(errno=12, wifi out of memory); channel 1: WLAN.config attribute missing")
    ∧ containsSeq "channel switching unsupported".data
        "Wi-Fi scan failed after attempting per-channel fallback: full scan attempt 1: OSError(errno=12, wifi out of memory); full scan attempt 2: OSError(errno=12, wifi out of memory); channel 1: WLAN.config attribute missing".data
        = false := by
  refine ⟨by decide, by decide, by decide, by decide⟩

/-- Claim C7 (amended): the keyword-style configuration call is tried first
and the positional form is attempted only after a type-mismatch-shaped
failure; the channel is treated as unsupported either when the keyword
attempt fails with a non-type-mismatch error (logged as a "setting channel
failed" diagnostic, the positional form never tried) or when both forms
fail; no failure of the switch negotiation is raised to the caller. -/
theorem set_channel_negotiation :
    (∀ (r : Radio) (ch : Int) (d : List String) (s : RState) (v : Int),
        r.hasConfig = true → r.configCallable = true →
        r.readChannel s = .ok (some v) →
        (∀ s', r.kwSetChannel s' ch = .ok ()) →
        set_channel_via_config r ch d s =
          ((true, some v), d, ⟨ch, s.scans, s.trace ++ [.configRead, .configSetKw ch]⟩))
    ∧ (∀ (r : Radio) (ch : Int) (d : List String) (s : RState) (v : Int) (te : Exc),
        r.hasConfig = true → r.configCallable = true →
        r.readChannel s = .ok (some v) →
        (∀ s', r.kwSetChannel s' ch = .error te) → isTypeError te = true →
        (∀ s', r.posSetChannel s' ch = .ok ()) →
        set_channel_via_config r ch d s =
          ((true, some v), d,
           ⟨ch, s.scans, s.trace ++ [.configRead, .configSetKw ch, .configSetPos ch]⟩))
    ∧ (∀ (r : Radio) (ch : Int) (d : List String) (s : RState) (v : Int) (te e2 : Exc),
        r.hasConfig = true → r.configCallable = true →
        r.readChannel s = .ok (some v) →
        (∀ s', r.kwSetChannel s' ch = .error te) → isTypeError te = true →
        (∀ s', r.posSetChannel s' ch = .error e2) →
        set_channel_via_config r ch d s =
          ((false, none),
           d ++ ["setting channel via positional arguments failed: " ++
             format_exception e2],
           ⟨s.channel, s.scans, s.trace ++ [.configRead, .configSetKw ch, .configSetPos ch]⟩))
    ∧ (∀ (r : Radio) (ch : Int) (d : List String) (s : RState) (v : Int) (e : Exc),
        r.hasConfig = true → r.configCallable = true →
        r.readChannel s = .ok (some v) →
        (∀ s', r.kwSetChannel s' ch = .error e) → isTypeError e = false →
        set_channel_via_config r ch d s =
          ((false, none), d ++ ["setting channel failed: " ++ format_exception e],
           ⟨s.channel, s.scans, s.trace ++ [.configRead, .configSetKw ch]⟩)) := by
  refine ⟨?_, ?_, ?_, ?_⟩
  · intro r ch d s v hc hcc hv hK
    simp [set_channel_via_config, doRead, doKwSet, hc, hcc, hv, hK]
  · intro r ch d s v te hc hcc hv hK hTE hP
    simp [set_channel_via_config, doRead, doKwSet, doPosSet, hc, hcc, hv, hK, hTE, hP]
  · intro r ch d s v te e2 hc hcc hv hK hTE hP
    simp [set_channel_via_config, doRead, doKwSet, doPosSet, hc, hcc, hv, hK, hTE, hP]
  · intro r ch d s v e hc hcc hv hK hTE
    simp [set_channel_via_config, doRead, doKwSet, hc, hcc, hv, hK, hTE]

/-- Witness for C7 (amended), non-type-mismatch case: the keyword failure is
logged as a "setting channel failed" diagnostic and the channel reported
unsupported, with no positional call in the trace. -/
theorem set_channel_negotiation_witness :
    set_channel_via_config kwFailRadio 7 [] ⟨0, 0, []⟩ =
      ((false, none), ["setting channel failed: " ++ format_exception cfgFailExc],
       ⟨0, 0, [.configRead, .configSetKw 7]⟩) := by
  have h := set_channel_negotiation.2.2.2 kwFailRadio 7 [] ⟨0, 0, []⟩ 0 cfgFailExc
    rfl rfl rfl (fun _ => rfl) rfl
  simpa using h

/-- Counterexample to C7 as stated: a non-type-mismatch failure of the
keyword-style set is not propagated to the caller: the channel is reported
unsupported (`(false, none)`, result `None`), nothing is raised, and the
positional form is never attempted. -/
theorem set_channel_kw_failure_counterexample :
    (set_channel_via_config kwFailRadio 7 [] ⟨0, 0, []⟩).1 = (false, none)
    ∧ (scan_wifi_by_channel kwFailRadio 7 [] ⟨0, 0, []⟩).1 = .ok none
    ∧ (set_channel_via_config kwFailRadio 7 [] ⟨0, 0, []⟩).2.2.trace =
        [.configRead, .configSetKw 7]
    ∧ (set_channel_via_config kwFailRadio 7 [] ⟨0, 0, []⟩).2.1 =
        ["setting channel failed: OSError(errno=5, config write failed)"] := by
  refine ⟨by decide, by decide, by decide, by decide⟩

/-- Claim C8: when the channel switch succeeded but the single-channel scan
fails with a memory-classified error, `scan_wifi_by_channel` returns an
empty list (never `None`, never an exception), records the exhaustion
diagnostic, still restores the channel, and the fallback sweep marks
per-channel support and continues without recording a failure for that
channel. -/
theorem scanChannel_memory_scan_empty
    (r : Radio) (ch : Int) (d : List String) (s : RState) (e : Exc)
    (hc : r.hasConfig = true) (hcc : r.configCallable = true)
    (hR : ∀ s', r.readChannel s' = .ok (some s'.channel))
    (hK : ∀ s' c, r.kwSetChannel s' c = .ok ())
    (hscan : ∀ s', r.scanResult s' = .error e)
    (hm : is_memory_error e = true) :
    scan_wifi_by_channel r ch d s =
      (.ok (some []),
       d ++ ["scan on channel " ++ toString ch ++ " exhausted memory: " ++
         format_exception e],
       ⟨s.channel, s.scans + 1,
        s.trace ++ [.configRead, .configSetKw ch, .scanCall, .configSetKw s.channel]⟩)
    ∧ (∀ (dd : List (Int × Entry)) (sup : Bool) (fl : List String),
        channelStep r ⟨dd, sup, fl, s⟩ ch =
          ⟨dd, true, fl,
           ⟨s.channel, s.scans + 1,
            s.trace ++ [.configRead, .configSetKw ch, .scanCall,
              .configSetKw s.channel]⟩⟩) := by
  have hgen : ∀ d' : List String, scan_wifi_by_channel r ch d' s =
      (.ok (some []),
       d' ++ ["scan on channel " ++ toString ch ++ " exhausted memory: " ++
         format_exception e],
       ⟨s.channel, s.scans + 1,
        s.trace ++ [.configRead, .configSetKw ch, .scanCall, .configSetKw s.channel]⟩) := by
    intro d'
    simp [scan_wifi_by_channel, set_channel_via_config, doRead, doKwSet, doScan,
      restore_channel, hc, hcc, hR, hK, hscan, hm]
  refine ⟨hgen d, fun dd sup fl => ?_⟩
  simp [channelStep, hgen, mergeChannelResults]

/-- Witness for C8: a functional radio whose scans always exhaust memory
yields an empty record list with the diagnostic recorded and channel 0
restored. -/
theorem scanChannel_memory_scan_empty_witness :
    scan_wifi_by_channel memScanRadio 3 [] ⟨0, 0, []⟩ =
      (.ok (some []),
       ["scan on channel 3 exhausted memory: OSError(errno=12, wifi out of memory)"],
       ⟨0, 1, [.configRead, .configSetKw 3, .scanCall, .configSetKw 0]⟩) := by
  have h := (scanChannel_memory_scan_empty memScanRadio 3 [] ⟨0, 0, []⟩ oomExc
    rfl rfl (fun _ => rfl) (fun _ _ => rfl) (fun _ => rfl) (by decide)).1
  rw [h]
  decide

/-- Claim C10: if reading the current channel raises before the switch, the
switch and the scan still happen, but the restore step is a no-op: no
restore call is issued and the radio is left configured on the scanned
channel, so channel restoration requires a successful read returning a
non-`None` value.  The same no-restore behaviour holds when the read
returns Python `None`. -/
theorem scanChannel_read_failure_no_restore :
    (∀ (r : Radio) (ch : Int) (d : List String) (s : RState) (ex : Exc),
        r.hasConfig = true → r.configCallable = true →
        r.readChannel s = .error ex →
        (∀ s' c, r.kwSetChannel s' c = .ok ()) →
        set_channel_via_config r ch d s =
          ((true, none),
           d ++ ["reading current channel failed: " ++ format_exception ex],
           ⟨ch, s.scans, s.trace ++ [.configRead, .configSetKw ch]⟩) ∧
        (scan_wifi_by_channel r ch d s).2.2.channel = ch ∧
        (scan_wifi_by_channel r ch d s).2.2.trace =
          s.trace ++ [.configRead, .configSetKw ch, .scanCall] ∧
        (ch ≠ s.channel → (scan_wifi_by_channel r ch d s).2.2.channel ≠ s.channel))
    ∧ (∀ (r : Radio) (ch : Int) (d : List String) (s : RState),
        r.hasConfig = true → r.configCallable = true →
        r.readChannel s = .ok none →
        (∀ s' c, r.kwSetChannel s' c = .ok ()) →
        (scan_wifi_by_channel r ch d s).2.2.channel = ch ∧
        (scan_wifi_by_channel r ch d s).2.2.trace =
          s.trace ++ [.configRead, .configSetKw ch, .scanCall]) := by
  constructor
  · intro r ch d s ex hc hcc hRe hK
    have hset : set_channel_via_config r ch d s =
        ((true, none),
         d ++ ["reading current channel failed: " ++ format_exception ex],
         ⟨ch, s.scans, s.trace ++ [.configRead, .configSetKw ch]⟩) := by
      simp [set_channel_via_config, doRead, doKwSet, hc, hcc, hRe, hK]
    have hfinal : (scan_wifi_by_channel r ch d s).2.2 =
        ⟨ch, s.scans + 1, s.trace ++ [.configRead, .configSetKw ch, .scanCall]⟩ := by
      cases hsc : r.scanResult ⟨ch, s.scans, s.trace ++ [.configRead, .configSetKw ch]⟩ with
      | ok l => simp [scan_wifi_by_channel, hset, doScan, hsc, restore_channel]
      | error e =>
          by_cases hm : is_memory_error e <;>
            simp [scan_wifi_by_channel, hset, doScan, hsc, hm, restore_channel]
    refine ⟨hset, by rw [hfinal], by rw [hfinal], fun hne => by rw [hfinal]; simpa using hne⟩
  · intro r ch d s hc hcc hR0 hK
    have hset : set_channel_via_config r ch d s =
        ((true, none), d, ⟨ch, s.scans, s.trace ++ [.configRead, .configSetKw ch]⟩) := by
      simp [set_channel_via_config, doRead, doKwSet, hc, hcc, hR0, hK]
    have hfinal : (scan_wifi_by_channel r ch d s).2.2 =
        ⟨ch, s.scans + 1, s.trace ++ [.configRead, .configSetKw ch, .scanCall]⟩ := by
      cases hsc : r.scanResult ⟨ch, s.scans, s.trace ++ [.configRead, .configSetKw ch]⟩ with
      | ok l => simp [scan_wifi_by_channel, hset, doScan, hsc, restore_channel]
      | error e =>
          by_cases hm : is_memory_error e <;>
            simp [scan_wifi_by_channel, hset, doScan, hsc, hm, restore_channel]
    exact ⟨by rw [hfinal], by rw [hfinal]⟩

/-- Witness for C10: the read-failure radio scanned on channel 9 from
channel 4 is left on channel 9, not restored to 4. -/
theorem scanChannel_read_failure_no_restore_witness :
    (scan_wifi_by_channel readFailRadio 9 [] ⟨4, 0, []⟩).2.2.channel = 9 ∧
    (scan_wifi_by_channel readFailRadio 9 [] ⟨4, 0, []⟩).2.2.channel ≠ 4 := by
  have h := scanChannel_read_failure_no_restore.1 readFailRadio 9 [] ⟨4, 0, []⟩ eioExc
    rfl rfl rfl (fun _ _ => rfl)
  exact ⟨h.2.1, h.2.2.2 (by decide)⟩

end WifiScanner
